import Mathlib

/-!
Verification of the `delivery_multi_destination` Odoo module
(`models/delivery_carrier.py`) against its specification.

The module overrides the `delivery.carrier` model.  We give a shallow
embedding: a carrier record is a structure of its scalar fields; the
framework-supplied (inherited) behaviors — `_match_address`, the inherited
`rate_shipment`, `send_shipping` and `available_carriers` — are oracle
function parameters, since this repository does not implement them.  The
one-to-many `child_ids` recordset of a carrier is passed explicitly as a
`List Carrier` (children's own children are never accessed by the code).
A Python exception from a delegated call is modelled with `Except`;
Python truthiness of a result list is emptiness.
-/

namespace DeliveryMultiDestination

/-- The `delivery_type` selection.  The module adds `base_on_destination`
to the externally defined values; `other` stands for any further
externally provided value (for example `base_on_rule`). -/
inductive DeliveryType where
  | fixed
  | base_on_destination
  | other (tag : Nat)
deriving DecidableEq

/-- The `destination_type` selection added by the module. -/
inductive DestinationType where
  | one
  | multi
deriving DecidableEq

/-- A `delivery.carrier` record: the scalar fields the module reads or
writes.  `parent_id`/`company_id` are `none` when unset (falsy in Python). -/
structure Carrier where
  id : Nat
  delivery_type : DeliveryType
  destination_type : DestinationType
  fixed_price : Int
  company_id : Option Nat
  parent_id : Option Nat
deriving DecidableEq

/-- A `res.partner` address is opaque to the module; we use an identifier. -/
abbrev Partner : Type := Nat

/-- A sale order: the module only reads `partner_shipping_id`. -/
structure Order where
  partner_shipping_id : Partner

/-- A stock picking: the fields the module reads (`partner_id`,
`company_id`) and the one it writes (`carrier_id`, stored as a record id). -/
structure Picking where
  partner_id : Partner
  company_id : Option Nat
  carrier_id : Nat
deriving DecidableEq

/-- One entry of a `send_shipping` result (`exact_price`,
`tracking_number`); `tracking_number = none` models the Python `False`. -/
structure ShipResult where
  exact_price : Int
  tracking_number : Option Nat
deriving DecidableEq

/-- `_compute_destination_type`: `base_on_destination` maps to `multi`,
every other `delivery_type` to `one`. -/
def compute_destination_type (c : Carrier) : Carrier :=
  if c.delivery_type = DeliveryType.base_on_destination then
    { c with destination_type := DestinationType.multi }
  else
    { c with destination_type := DestinationType.one }

/-- `_inverse_destination_type`: switching to `multi` forces
`delivery_type := base_on_destination`; switching away resets
`delivery_type` to `fixed` only when it is the now-invalid
`base_on_destination`. -/
def inverse_destination_type (c : Carrier) : Carrier :=
  if c.destination_type = DestinationType.multi then
    { c with delivery_type := DeliveryType.base_on_destination }
  else if c.delivery_type = DeliveryType.base_on_destination then
    { c with delivery_type := DeliveryType.fixed }
  else
    c

/-- Writing `delivery_type` triggers the stored compute of
`destination_type` (`@api.depends("delivery_type")`). -/
def write_delivery_type (c : Carrier) (dt : DeliveryType) : Carrier :=
  compute_destination_type { c with delivery_type := dt }

/-- Writing `destination_type` runs the inverse, whose write to
`delivery_type` retriggers the stored compute. -/
def write_destination_type (c : Carrier) (t : DestinationType) : Carrier :=
  compute_destination_type (inverse_destination_type { c with destination_type := t })

/-- The invariant relating the two selection fields. -/
def destInvariant (c : Carrier) : Prop :=
  c.destination_type = DestinationType.multi ↔
    c.delivery_type = DeliveryType.base_on_destination

/-- C5: after any write to `delivery_type` or `destination_type` the
invariant `destination_type = multi ↔ delivery_type = base_on_destination`
holds; the compute maps `base_on_destination` to `multi` and everything
else to `one`; setting `destination_type := multi` forces
`delivery_type := base_on_destination`; both writes are stable (idempotent)
under repetition. -/
theorem C5_destination_type_invariant (c : Carrier) :
    (∀ dt, destInvariant (write_delivery_type c dt)) ∧
    (∀ t, destInvariant (write_destination_type c t)) ∧
    (∀ dt, (write_delivery_type c dt).destination_type =
      (if dt = DeliveryType.base_on_destination then DestinationType.multi
       else DestinationType.one)) ∧
    ((write_destination_type c DestinationType.multi).delivery_type =
      DeliveryType.base_on_destination) ∧
    (∀ dt, write_delivery_type (write_delivery_type c dt) dt =
      write_delivery_type c dt) ∧
    (∀ t, write_destination_type (write_destination_type c t) t =
      write_destination_type c t) := by
  obtain ⟨i, dt0, t0, fp, co, pa⟩ := c
  refine ⟨?_, ?_, ?_, ?_, ?_, ?_⟩
  · intro dt
    rcases dt with _ | _ | tag <;>
      simp [write_delivery_type, compute_destination_type, destInvariant]
  · intro t
    rcases t with _ | _ <;> rcases dt0 with _ | _ | tag <;>
      simp [write_destination_type, compute_destination_type,
        inverse_destination_type, destInvariant]
  · intro dt
    rcases dt with _ | _ | tag <;>
      simp [write_delivery_type, compute_destination_type]
  · simp [write_destination_type, compute_destination_type,
      inverse_destination_type]
  · intro dt
    rcases dt with _ | _ | tag <;>
      simp [write_delivery_type, compute_destination_type]
  · intro t
    rcases t with _ | _ <;> rcases dt0 with _ | _ | tag <;>
      simp [write_destination_type, compute_destination_type,
        inverse_destination_type]

/-- C6: setting `destination_type` away from `multi` (to `one`) resets
`delivery_type` to `fixed` exactly when the current `delivery_type` is
`base_on_destination`, and leaves `delivery_type` unchanged otherwise. -/
theorem C6_reset_delivery_type (c : Carrier) :
    (c.delivery_type = DeliveryType.base_on_destination →
      (write_destination_type c DestinationType.one).delivery_type =
        DeliveryType.fixed) ∧
    (c.delivery_type ≠ DeliveryType.base_on_destination →
      (write_destination_type c DestinationType.one).delivery_type =
        c.delivery_type) := by
  constructor <;> intro h <;>
    simp [write_destination_type, inverse_destination_type,
      compute_destination_type, h]

/-- A concrete carrier currently in the `multi` configuration. -/
def carrierBOD : Carrier :=
  { id := 1, delivery_type := DeliveryType.base_on_destination,
    destination_type := DestinationType.multi, fixed_price := 0,
    company_id := none, parent_id := none }

/-- Witness for C6: on a concrete `base_on_destination` carrier, switching
`destination_type` to `one` resets `delivery_type` to `fixed`. -/
theorem C6_reset_delivery_type_witness :
    (write_destination_type carrierBOD DestinationType.one).delivery_type =
      DeliveryType.fixed :=
  (C6_reset_delivery_type carrierBOD).1 rfl

/-- The inherited `search`: the framework filters the record universe by a
domain, modelled as a list of predicates that must all hold. -/
def base_search (records : List Carrier) (domain : List (Carrier → Bool)) :
    List Carrier :=
  records.filter fun r => domain.all fun pred => pred r

/-- The override of `search`: unless the `show_children_carriers` context
flag is set, append the `("parent_id", "=", False)` filter before
delegating to the inherited search. -/
def search (show_children_carriers : Bool) (records : List Carrier)
    (domain : List (Carrier → Bool)) : List Carrier :=
  if show_children_carriers then
    base_search records domain
  else
    base_search records (domain ++ [fun r => r.parent_id.isNone])

/-- The inherited `name_search`: filters by the `args` domain and by an
externally supplied name-matching predicate. -/
def base_name_search (records : List Carrier) (name_match : Carrier → Bool)
    (args : List (Carrier → Bool)) : List Carrier :=
  (base_search records args).filter name_match

/-- The override of `name_search`: same appended `parent_id` filter as
`search`, then delegation to the inherited `name_search`. -/
def name_search (show_children_carriers : Bool) (records : List Carrier)
    (name_match : Carrier → Bool) (args : List (Carrier → Bool)) :
    List Carrier :=
  if show_children_carriers then
    base_name_search records name_match args
  else
    base_name_search records name_match (args ++ [fun r => r.parent_id.isNone])

/-- C8: with the `show_children_carriers` flag absent, `search` and
`name_search` never return a record whose `parent_id` is set; with the
flag present no filter is appended and both coincide with the inherited
behavior on the original domain (children included). -/
theorem C8_children_hidden_by_default (records : List Carrier)
    (domain : List (Carrier → Bool)) (name_match : Carrier → Bool)
    (args : List (Carrier → Bool)) :
    (∀ r ∈ search false records domain, r.parent_id = none) ∧
    (search true records domain = base_search records domain) ∧
    (∀ r ∈ name_search false records name_match args, r.parent_id = none) ∧
    (name_search true records name_match args =
      base_name_search records name_match args) := by
  refine ⟨?_, rfl, ?_, rfl⟩
  · intro r hr
    simp only [search, if_neg (Bool.false_ne_true), base_search,
      List.mem_filter, List.all_append, List.all_cons, List.all_nil,
      Bool.and_eq_true, Bool.and_true] at hr
    exact Option.isNone_iff_eq_none.mp hr.2.2
  · intro r hr
    simp only [name_search, if_neg (Bool.false_ne_true), base_name_search,
      base_search, List.mem_filter, List.all_append, List.all_cons,
      List.all_nil, Bool.and_eq_true, Bool.and_true] at hr
    exact Option.isNone_iff_eq_none.mp hr.1.2.2

/-- A concrete child carrier (its `parent_id` is set). -/
def childRecord : Carrier :=
  { id := 2, delivery_type := DeliveryType.fixed,
    destination_type := DestinationType.one, fixed_price := 5,
    company_id := none, parent_id := some 1 }

/-- Witness for C8: on a universe holding a root carrier and a child, the
default search returns only records without a parent, while the flagged
search also returns the child. -/
theorem C8_children_hidden_by_default_witness :
    childRecord ∈ search true [carrierBOD, childRecord] [fun _ => true] ∧
    (carrierBOD.parent_id = none ∧
      carrierBOD ∈ search false [carrierBOD, childRecord] [fun _ => true]) ∧
    ∀ r ∈ search false [carrierBOD, childRecord] [fun _ => true],
      r.parent_id = none := by
  refine ⟨by decide, ⟨rfl, by decide⟩, ?_⟩
  exact (C8_children_hidden_by_default [carrierBOD, childRecord]
    [fun _ => true] (fun _ => true) []).1

/-- The override of `available_carriers`: a `one` carrier is tested
directly by the inherited check; a `multi` carrier is tested across its
children.  The inherited check on a recordset keeps the records satisfying
the framework's per-record availability predicate `avail`; Python
truthiness of the resulting recordset is non-emptiness.  `children_of`
models the `child_ids` one-to-many lookup. -/
def available_carriers (avail : Carrier → Partner → Bool)
    (children_of : Carrier → List Carrier) (self : List Carrier)
    (partner : Partner) : List Carrier :=
  self.filter fun carrier =>
    (if carrier.destination_type = DestinationType.one then [carrier]
     else children_of carrier).any fun c => avail c partner

/-- C7: `available_carriers` keeps a `one` carrier exactly when the
inherited availability check accepts it, and keeps a `multi` carrier
exactly when at least one of its children is available for the partner. -/
theorem C7_available_carriers_spec (avail : Carrier → Partner → Bool)
    (children_of : Carrier → List Carrier) (self : List Carrier)
    (partner : Partner) :
    (∀ c ∈ self, c.destination_type = DestinationType.one →
      (c ∈ available_carriers avail children_of self partner ↔
        avail c partner = true)) ∧
    (∀ c ∈ self, c.destination_type = DestinationType.multi →
      (c ∈ available_carriers avail children_of self partner ↔
        ∃ ch ∈ children_of c, avail ch partner = true)) := by
  constructor <;> intro c hc htype <;>
    simp [available_carriers, List.mem_filter, hc, htype, List.any_eq_true]

/-- A concrete `one` child carrier without a company restriction. -/
def childFixed : Carrier :=
  { id := 3, delivery_type := DeliveryType.fixed,
    destination_type := DestinationType.one, fixed_price := 10,
    company_id := none, parent_id := some 1 }

/-- Witness for C7: a concrete `multi` carrier is kept because one of its
two children is available for partner `0`. -/
theorem C7_available_carriers_spec_witness :
    carrierBOD ∈ available_carriers (fun c _ => c.id = 3)
      (fun _ => [childRecord, childFixed]) [carrierBOD] 0 := by
  refine ((C7_available_carriers_spec (fun c _ => c.id = 3)
    (fun _ => [childRecord, childFixed]) [carrierBOD] 0).2 carrierBOD
    (by decide) rfl).mpr ?_
  exact ⟨childFixed, by decide, by decide⟩

/-- The inherited rate computation is an oracle; we record only the rate. -/
abbrev RateResult : Type := Int

/-- The `for subcarrier in carrier.child_ids` loop of `rate_shipment`:
return the inherited rate of the first child whose `_match_address`
(oracle `matchAddress`) accepts the order's shipping address; falling off
the loop returns `None`. -/
def rate_loop (superRate : Carrier → Order → RateResult)
    (matchAddress : Carrier → Partner → Bool) (order : Order) :
    List Carrier → Option RateResult
  | [] => none
  | sub :: rest =>
    if matchAddress sub order.partner_shipping_id then
      some (superRate sub order)
    else
      rate_loop superRate matchAddress order rest

/-- The override of `rate_shipment`: a `one` carrier delegates to the
inherited computation; a `multi` carrier scans `child_ids` (passed
explicitly) with `rate_loop`. -/
def rate_shipment (superRate : Carrier → Order → RateResult)
    (matchAddress : Carrier → Partner → Bool) (self : Carrier)
    (child_ids : List Carrier) (order : Order) : Option RateResult :=
  if self.destination_type = DestinationType.one then
    some (superRate self order)
  else
    rate_loop superRate matchAddress order child_ids

theorem rate_loop_eq_find (superRate : Carrier → Order → RateResult)
    (matchAddress : Carrier → Partner → Bool) (order : Order) :
    ∀ child_ids : List Carrier,
      rate_loop superRate matchAddress order child_ids =
        (child_ids.find? fun sub =>
          matchAddress sub order.partner_shipping_id).map
          fun sub => superRate sub order
  | [] => rfl
  | sub :: rest => by
    by_cases h : matchAddress sub order.partner_shipping_id = true
    · simp [rate_loop, h, List.find?_cons_of_pos]
    · simp only [Bool.not_eq_true] at h
      simp [rate_loop, h, List.find?_cons_of_neg,
        rate_loop_eq_find superRate matchAddress order rest]

/-- C1: on a `multi` carrier, `rate_shipment` returns the inherited rate
of the first child (in stored order) whose address predicate accepts the
order's shipping address; in particular with children `[A, B]` where `A`
matches, the result is `A`'s rate. -/
theorem C1_first_matching_child_rate (superRate : Carrier → Order → RateResult)
    (matchAddress : Carrier → Partner → Bool) (self : Carrier)
    (child_ids : List Carrier) (order : Order)
    (hmulti : self.destination_type = DestinationType.multi) :
    (rate_shipment superRate matchAddress self child_ids order =
      (child_ids.find? fun sub =>
        matchAddress sub order.partner_shipping_id).map
        fun sub => superRate sub order) ∧
    (∀ A B : Carrier, matchAddress A order.partner_shipping_id = true →
      rate_shipment superRate matchAddress self [A, B] order =
        some (superRate A order)) := by
  constructor
  · simp only [rate_shipment, hmulti]
    simp [rate_loop_eq_find]
  · intro A B hA
    simp only [rate_shipment, hmulti]
    simp [rate_loop, hA]

/-- Two concrete children of the `multi` carrier, both matching every
address; `subA` comes first in the stored order. -/
def subA : Carrier :=
  { id := 4, delivery_type := DeliveryType.fixed,
    destination_type := DestinationType.one, fixed_price := 5,
    company_id := none, parent_id := some 1 }

/-- The second concrete child. -/
def subB : Carrier :=
  { id := 5, delivery_type := DeliveryType.fixed,
    destination_type := DestinationType.one, fixed_price := 9,
    company_id := none, parent_id := some 1 }

/-- Witness for C1: with both children matching, the rate is `subA`'s
(the inherited rate here is the child's `fixed_price`, so `5`, not `9`). -/
theorem C1_first_matching_child_rate_witness :
    rate_shipment (fun c _ => c.fixed_price) (fun _ _ => true) carrierBOD
      [subA, subB] { partner_shipping_id := 0 } = some 5 :=
  (C1_first_matching_child_rate (fun c _ => c.fixed_price) (fun _ _ => true)
    carrierBOD [subA, subB] { partner_shipping_id := 0 } rfl).2 subA subB rfl

/-- C9: on a `multi` carrier, when no child's address predicate accepts
the order's shipping address, `rate_shipment` returns `none` (the Python
method falls off the loop and returns `None`); the embedding is a total
function into `Option`, so no exception is possible. -/
theorem C9_no_match_returns_none (superRate : Carrier → Order → RateResult)
    (matchAddress : Carrier → Partner → Bool) (self : Carrier)
    (child_ids : List Carrier) (order : Order)
    (hmulti : self.destination_type = DestinationType.multi)
    (hnone : ∀ sub ∈ child_ids,
      matchAddress sub order.partner_shipping_id = false) :
    rate_shipment superRate matchAddress self child_ids order = none := by
  have hne : self.destination_type ≠ DestinationType.one := by
    rw [hmulti]; decide
  have hfind : (child_ids.find? fun sub =>
      matchAddress sub order.partner_shipping_id) = none := by
    rw [List.find?_eq_none]
    intro sub hsub
    simp [hnone sub hsub]
  simp only [rate_shipment, if_neg hne, rate_loop_eq_find, hfind]
  rfl

/-- Witness for C9: a concrete `multi` carrier whose two children match no
address yields no rate. -/
theorem C9_no_match_returns_none_witness :
    rate_shipment (fun c _ => c.fixed_price) (fun _ _ => false) carrierBOD
      [subA, subB] { partner_shipping_id := 0 } = none :=
  C9_no_match_returns_none (fun c _ => c.fixed_price) (fun _ _ => false)
    carrierBOD [subA, subB] { partner_shipping_id := 0 } rfl
    (by intro sub hsub; rfl)

/-- The message of the `ValidationError` raised by `send_shipping`. -/
def noMatchingRuleMsg : String := "There is no matching delivery rule."

/-- The `filtered(lambda x: not x.company_id or x.company_id == p.company_id)`
candidate selection of `send_shipping`. -/
def candidates (child_ids : List Carrier) (p : Picking) : List Carrier :=
  child_ids.filter fun x => x.company_id.isNone || x.company_id == p.company_id

/-- The `for subcarrier in ...` loop body of `send_shipping` for one
picking.  `superSend` is the inherited (delegated) booking oracle; it sees
the picking with `carrier_id` already reassigned to the subcarrier (the
`p.carrier_id = subcarrier.id` write inside the `try`).  An `Except.error`
models a raised Python exception.  On a `fixed` matching child the
synthetic result is produced with no mutation; on a delegated attempt the
`finally` block restores `carrier_id` to the parent on success (`break`),
on a swallowed exception (continue), and on any propagated error.
Returns the final `picking_res` (`none` models the Python `False`) and the
picking's final state. -/
def send_loop (superSend : Carrier → Picking → Except Unit (List ShipResult))
    (matchAddress : Carrier → Partner → Bool) (parent : Carrier) :
    Picking → List Carrier → Option (List ShipResult) × Picking
  | p, [] => (none, p)
  | p, sub :: rest =>
    if sub.delivery_type = DeliveryType.fixed then
      if matchAddress sub p.partner_id then
        (some [{ exact_price := sub.fixed_price, tracking_number := none }], p)
      else
        send_loop superSend matchAddress parent p rest
    else
      match superSend sub { p with carrier_id := sub.id } with
      | Except.ok res => (some res, { p with carrier_id := parent.id })
      | Except.error _ =>
        send_loop superSend matchAddress parent
          { p with carrier_id := parent.id } rest

/-- Python truthiness of the `picking_res` value after the inner loop
(`False` is falsy, and so is an empty result list). -/
def resTruthy : Option (List ShipResult) → Bool
  | none => false
  | some res => !res.isEmpty

/-- The `for p in pickings` loop of `send_shipping`: after each picking's
scan, `if not picking_res` raises the validation error (aborting the
loop; pickings already processed keep their final states, later ones are
untouched), otherwise `res += picking_res` accumulates the result and an
error raised further down the loop propagates. -/
def send_pickings (superSend : Carrier → Picking → Except Unit (List ShipResult))
    (matchAddress : Carrier → Partner → Bool) (parent : Carrier)
    (child_ids : List Carrier) :
    List Picking → Except String (List ShipResult) × List Picking
  | [] => (Except.ok [], [])
  | p :: ps =>
    let scan := send_loop superSend matchAddress parent p (candidates child_ids p)
    if resTruthy scan.1 then
      let rest := send_pickings superSend matchAddress parent child_ids ps
      (rest.1.map fun acc => scan.1.getD [] ++ acc, scan.2 :: rest.2)
    else
      (Except.error noMatchingRuleMsg, scan.2 :: ps)

/-- The override of `send_shipping`.  `superSendBatch` is the inherited
batch behavior used by the `destination_type == "one"` branch (the
`not self` guard is vacuous here: the embedding takes a single carrier).
The result pairs the returned value (or raised error) with the final
states of the pickings. -/
def send_shipping
    (superSendBatch : Carrier → List Picking → Except String (List ShipResult))
    (superSend : Carrier → Picking → Except Unit (List ShipResult))
    (matchAddress : Carrier → Partner → Bool) (self : Carrier)
    (child_ids : List Carrier) (pickings : List Picking) :
    Except String (List ShipResult) × List Picking :=
  if self.destination_type = DestinationType.one then
    (superSendBatch self pickings, pickings)
  else
    send_pickings superSend matchAddress self child_ids pickings

theorem send_loop_state
    (superSend : Carrier → Picking → Except Unit (List ShipResult))
    (matchAddress : Carrier → Partner → Bool) (parent : Carrier) :
    ∀ (cs : List Carrier) (p : Picking),
      (send_loop superSend matchAddress parent p cs).2 = p ∨
        (send_loop superSend matchAddress parent p cs).2 =
          { p with carrier_id := parent.id }
  | [], p => Or.inl rfl
  | sub :: rest, p => by
    simp only [send_loop]
    by_cases hf : sub.delivery_type = DeliveryType.fixed
    · rw [if_pos hf]
      by_cases hm : matchAddress sub p.partner_id = true
      · rw [if_pos hm]
        exact Or.inl rfl
      · rw [if_neg hm]
        exact send_loop_state superSend matchAddress parent rest p
    · rw [if_neg hf]
      cases hs : superSend sub { p with carrier_id := sub.id } with
      | ok res => exact Or.inr rfl
      | error e =>
        rcases send_loop_state superSend matchAddress parent rest
            { p with carrier_id := parent.id } with h | h
        · exact Or.inr h
        · exact Or.inr h

theorem send_pickings_states
    (superSend : Carrier → Picking → Except Unit (List ShipResult))
    (matchAddress : Carrier → Partner → Bool) (parent : Carrier)
    (child_ids : List Carrier) :
    ∀ pickings : List Picking,
      List.Forall₂ (fun p q => q = p ∨ q = { p with carrier_id := parent.id })
        pickings
        (send_pickings superSend matchAddress parent child_ids pickings).2
  | [] => List.Forall₂.nil
  | p :: ps => by
    have hrefl : List.Forall₂
        (fun p q => q = p ∨ q = { p with carrier_id := parent.id }) ps ps :=
      List.forall₂_same.mpr fun x _ => Or.inl rfl
    have hhead :=
      send_loop_state superSend matchAddress parent (candidates child_ids p) p
    have htail := send_pickings_states superSend matchAddress parent child_ids ps
    simp only [send_pickings]
    by_cases ht : resTruthy (send_loop superSend matchAddress parent p
        (candidates child_ids p)).1 = true
    · rw [if_pos ht]
      exact List.Forall₂.cons hhead htail
    · rw [if_neg ht]
      exact List.Forall₂.cons hhead hrefl

theorem send_pickings_error_iff
    (superSend : Carrier → Picking → Except Unit (List ShipResult))
    (matchAddress : Carrier → Partner → Bool) (parent : Carrier)
    (child_ids : List Carrier) :
    ∀ pickings : List Picking,
      (send_pickings superSend matchAddress parent child_ids pickings).1 =
          Except.error noMatchingRuleMsg ↔
        ∃ p ∈ pickings,
          resTruthy (send_loop superSend matchAddress parent p
            (candidates child_ids p)).1 = false
  | [] => by simp [send_pickings]
  | p :: ps => by
    have hih := send_pickings_error_iff superSend matchAddress parent child_ids ps
    simp only [send_pickings]
    by_cases ht : resTruthy (send_loop superSend matchAddress parent p
        (candidates child_ids p)).1 = true
    · rw [if_pos ht]
      constructor
      · intro h
        cases hr : (send_pickings superSend matchAddress parent child_ids ps).1 with
        | ok acc =>
          rw [hr] at h
          exact Except.noConfusion h
        | error e =>
          rw [hr] at h
          have he : e = noMatchingRuleMsg := by injection h
          obtain ⟨q, hq, hf⟩ := hih.mp (by rw [hr, he])
          exact ⟨q, List.mem_cons_of_mem p hq, hf⟩
      · rintro ⟨q, hq, hf⟩
        rcases List.mem_cons.mp hq with hq | hq
        · rw [hq] at hf
          rw [ht] at hf
          cases hf
        · have hrec := hih.mpr ⟨q, hq, hf⟩
          rw [hrec]
          rfl
    · rw [if_neg ht]
      have ht' : resTruthy (send_loop superSend matchAddress parent p
          (candidates child_ids p)).1 = false := by
        simpa using ht
      constructor
      · intro _
        exact ⟨p, List.mem_cons_self p ps, ht'⟩
      · intro _
        rfl

theorem send_pickings_error_msg
    (superSend : Carrier → Picking → Except Unit (List ShipResult))
    (matchAddress : Carrier → Partner → Bool) (parent : Carrier)
    (child_ids : List Carrier) :
    ∀ (pickings : List Picking) (e : String),
      (send_pickings superSend matchAddress parent child_ids pickings).1 =
        Except.error e → e = noMatchingRuleMsg
  | [], e => by simp [send_pickings]
  | p :: ps, e => by
    simp only [send_pickings]
    by_cases ht : resTruthy (send_loop superSend matchAddress parent p
        (candidates child_ids p)).1 = true
    · rw [if_pos ht]
      intro h
      cases hr : (send_pickings superSend matchAddress parent child_ids ps).1 with
      | ok acc =>
        rw [hr] at h
        exact Except.noConfusion h
      | error e' =>
        rw [hr] at h
        have he' : e' = e := by injection h
        rw [← he']
        exact send_pickings_error_msg superSend matchAddress parent child_ids
          ps e' (by rw [hr])
    · rw [if_neg ht]
      intro h
      have hmsg : noMatchingRuleMsg = e := by injection h
      exact hmsg.symm

theorem send_loop_skip
    (superSend : Carrier → Picking → Except Unit (List ShipResult))
    (matchAddress : Carrier → Partner → Bool) (parent f : Carrier)
    (post : List Carrier)
    (hf : f.delivery_type = DeliveryType.fixed) :
    ∀ (pre : List Carrier) (p : Picking),
      matchAddress f p.partner_id = true →
      (∀ c ∈ pre,
        (c.delivery_type = DeliveryType.fixed ∧
          matchAddress c p.partner_id = false) ∨
        (c.delivery_type ≠ DeliveryType.fixed ∧
          superSend c { p with carrier_id := c.id } = Except.error ())) →
      (send_loop superSend matchAddress parent p (pre ++ f :: post)).1 =
        some [{ exact_price := f.fixed_price, tracking_number := none }]
  | [], p, hm, _ => by
    simp only [List.nil_append, send_loop, if_pos hf, if_pos hm]
  | c :: pre, p, hm, hpre => by
    rcases hpre c (List.mem_cons_self c pre) with ⟨hcf, hcm⟩ | ⟨hcf, hcs⟩
    · simp only [List.cons_append, send_loop, if_pos hcf]
      rw [if_neg (by rw [hcm]; decide)]
      exact send_loop_skip superSend matchAddress parent f post hf pre p hm
        fun x hx => hpre x (List.mem_cons_of_mem c hx)
    · simp only [List.cons_append, send_loop, if_neg hcf, hcs]
      exact send_loop_skip superSend matchAddress parent f post hf pre
        { p with carrier_id := parent.id } hm
        fun x hx => hpre x (List.mem_cons_of_mem c hx)

/-- A non-`fixed` child (rule-based pricing) of the `multi` carrier. -/
def subRule : Carrier :=
  { id := 6, delivery_type := DeliveryType.other 0,
    destination_type := DestinationType.one, fixed_price := 0,
    company_id := none, parent_id := some 1 }

/-- A second non-`fixed` child, whose delegated booking will return an
empty (falsy) result in the C10 scenario. -/
def subRuleEmpty : Carrier :=
  { id := 8, delivery_type := DeliveryType.other 0,
    destination_type := DestinationType.one, fixed_price := 0,
    company_id := none, parent_id := some 1 }

/-- A picking whose carrier reference is the parent carrier (id 1). -/
def pickingParent : Picking :=
  { partner_id := 0, company_id := none, carrier_id := 1 }

/-- A picking whose carrier reference is some other carrier (id 7). -/
def pickingOther : Picking :=
  { partner_id := 0, company_id := none, carrier_id := 7 }

/-- Delegated booking oracle for the C10 scenario: child 8 books without
raising but returns an empty result; every other child books a real
result. -/
def sendEmptyThenOk : Carrier → Picking → Except Unit (List ShipResult) :=
  fun c _ =>
    if c.id = 8 then Except.ok []
    else Except.ok [{ exact_price := 42, tracking_number := none }]

/-- C2 counterexample: a `multi` carrier whose children are
`[subRule (non-fixed, delegated booking succeeds), childFixed (fixed,
matching)]`.  The claim says `send_shipping` produces the synthetic
fixed-price result without invoking any non-fixed child; the code scans
children in stored order, so the non-fixed child is invoked first and its
result is returned instead of the synthetic one. -/
theorem C2_counterexample :
    (send_shipping (fun _ _ => Except.ok [])
      (fun _ _ => Except.ok [{ exact_price := 42, tracking_number := some 7 }])
      (fun _ _ => true) carrierBOD [subRule, childFixed] [pickingParent]).1 =
      Except.ok [{ exact_price := 42, tracking_number := some 7 }] ∧
    (send_shipping (fun _ _ => Except.ok [])
      (fun _ _ => Except.ok [{ exact_price := 42, tracking_number := some 7 }])
      (fun _ _ => true) carrierBOD [subRule, childFixed] [pickingParent]).1 ≠
      Except.ok [⟨childFixed.fixed_price, none⟩] := by
  constructor
  · rfl
  · intro h
    have h' : ([{ exact_price := 42, tracking_number := some 7 }] :
        List ShipResult) = [⟨childFixed.fixed_price, none⟩] := by
      injection h
    exact absurd h' (by decide)

/-- C2 (amended): if, scanning the company-filtered children in stored
order, every child before the fixed matching child `f` either is fixed
and does not match the picking's address, or is non-fixed and its
delegated booking raises, then `send_shipping` produces the synthetic
result `{exact_price := f.fixed_price, tracking_number := none}` for the
picking and stops scanning: no later child (of `post`) is invoked. -/
theorem C2_amended_fixed_child_synthetic
    (superSendBatch : Carrier → List Picking → Except String (List ShipResult))
    (superSend : Carrier → Picking → Except Unit (List ShipResult))
    (matchAddress : Carrier → Partner → Bool) (parent f : Carrier)
    (child_ids pre post : List Carrier) (p : Picking)
    (hmulti : parent.destination_type = DestinationType.multi)
    (hcand : candidates child_ids p = pre ++ f :: post)
    (hf : f.delivery_type = DeliveryType.fixed)
    (hm : matchAddress f p.partner_id = true)
    (hpre : ∀ c ∈ pre,
      (c.delivery_type = DeliveryType.fixed ∧
        matchAddress c p.partner_id = false) ∨
      (c.delivery_type ≠ DeliveryType.fixed ∧
        superSend c { p with carrier_id := c.id } = Except.error ())) :
    (send_shipping superSendBatch superSend matchAddress parent child_ids
      [p]).1 =
      Except.ok [{ exact_price := f.fixed_price, tracking_number := none }] := by
  have hne : parent.destination_type ≠ DestinationType.one := by
    rw [hmulti]; decide
  have hscan := send_loop_skip superSend matchAddress parent f post hf pre p
    hm hpre
  simp only [send_shipping]
  rw [if_neg hne]
  simp only [send_pickings, hcand, hscan]
  rfl

/-- Witness for the amended C2: child `subRule` (non-fixed) raises, so the
scan reaches the fixed matching child and `send_shipping` returns its
fixed price `10` as the synthetic result. -/
theorem C2_amended_fixed_child_synthetic_witness :
    (send_shipping (fun _ _ => Except.ok [])
      (fun c _ => if c.id = 6 then Except.error () else Except.ok [])
      (fun _ _ => true) carrierBOD [subRule, childFixed] [pickingParent]).1 =
      Except.ok [{ exact_price := 10, tracking_number := none }] := by
  refine C2_amended_fixed_child_synthetic (fun _ _ => Except.ok [])
    (fun c _ => if c.id = 6 then Except.error () else Except.ok [])
    (fun _ _ => true) carrierBOD childFixed [subRule, childFixed] [subRule]
    [] pickingParent rfl rfl rfl rfl ?_
  intro c hc
  rw [List.mem_singleton] at hc
  subst hc
  exact Or.inr ⟨by decide, rfl⟩

/-- C3: on a `multi` carrier, (a) an exception raised by a non-fixed
child's delegated booking is swallowed and the scan continues with the
next candidate (with the picking's carrier restored to the parent);
(b) `send_shipping` raises the validation error exactly when, for some
picking, the scan over its candidate children produced no (truthy)
result; (c) the validation error message is the only error the multi
branch introduces. -/
theorem C3_error_handling
    (superSendBatch : Carrier → List Picking → Except String (List ShipResult))
    (superSend : Carrier → Picking → Except Unit (List ShipResult))
    (matchAddress : Carrier → Partner → Bool) (parent : Carrier)
    (child_ids : List Carrier)
    (hmulti : parent.destination_type = DestinationType.multi) :
    (∀ (p : Picking) (sub : Carrier) (rest : List Carrier) (e : Unit),
      sub.delivery_type ≠ DeliveryType.fixed →
      superSend sub { p with carrier_id := sub.id } = Except.error e →
      send_loop superSend matchAddress parent p (sub :: rest) =
        send_loop superSend matchAddress parent
          { p with carrier_id := parent.id } rest) ∧
    (∀ pickings : List Picking,
      (send_shipping superSendBatch superSend matchAddress parent child_ids
          pickings).1 = Except.error noMatchingRuleMsg ↔
        ∃ p ∈ pickings,
          resTruthy (send_loop superSend matchAddress parent p
            (candidates child_ids p)).1 = false) ∧
    (∀ (pickings : List Picking) (e : String),
      (send_shipping superSendBatch superSend matchAddress parent child_ids
          pickings).1 = Except.error e → e = noMatchingRuleMsg) := by
  have hne : parent.destination_type ≠ DestinationType.one := by
    rw [hmulti]; decide
  refine ⟨?_, ?_, ?_⟩
  · intro p sub rest e hnf hs
    simp only [send_loop, if_neg hnf, hs]
  · intro pickings
    simp only [send_shipping]
    rw [if_neg hne]
    exact send_pickings_error_iff superSend matchAddress parent child_ids
      pickings
  · intro pickings e
    simp only [send_shipping]
    rw [if_neg hne]
    exact send_pickings_error_msg superSend matchAddress parent child_ids
      pickings e

/-- Witness for C3: concretely, a raising non-fixed child is skipped (the
scan equals the scan of the remaining children with the carrier
restored), and when every child raises, `send_shipping` returns the
validation error. -/
theorem C3_error_handling_witness :
    send_loop (fun _ _ => Except.error ()) (fun _ _ => true) carrierBOD
      pickingParent [subRule, childFixed] =
      send_loop (fun _ _ => Except.error ()) (fun _ _ => true) carrierBOD
        { pickingParent with carrier_id := 1 } [childFixed] ∧
    (send_shipping (fun _ _ => Except.ok []) (fun _ _ => Except.error ())
      (fun _ _ => false) carrierBOD [subRule] [pickingParent]).1 =
      Except.error noMatchingRuleMsg := by
  constructor
  · exact (C3_error_handling (fun _ _ => Except.ok [])
      (fun _ _ => Except.error ()) (fun _ _ => true) carrierBOD [] rfl).1
      pickingParent subRule [childFixed] () (by decide) rfl
  · exact ((C3_error_handling (fun _ _ => Except.ok [])
      (fun _ _ => Except.error ()) (fun _ _ => false) carrierBOD
      [subRule] rfl).2.1 [pickingParent]).mpr
      ⟨pickingParent, List.mem_cons_self pickingParent [], rfl⟩

/-- C4 counterexample: a picking whose carrier reference (id 7) is not the
parent (id 1).  After `send_shipping` on the `multi` parent with one
non-fixed child whose delegated booking succeeds, the picking's carrier
reference is `1` (the parent), not its value `7` from before the call:
the `finally` block restores to the parent, not to the prior value. -/
theorem C4_counterexample :
    pickingOther.carrier_id = 7 ∧
    (send_shipping (fun _ _ => Except.ok [])
      (fun _ _ => Except.ok [{ exact_price := 42, tracking_number := none }])
      (fun _ _ => true) carrierBOD [subRule] [pickingOther]).2 =
      [{ pickingOther with carrier_id := 1 }] ∧
    ({ pickingOther with carrier_id := 1 } : Picking) ≠ pickingOther :=
  ⟨rfl, rfl, by decide⟩

theorem forall₂_restore_eq (parent : Carrier) :
    ∀ (ps qs : List Picking),
      List.Forall₂ (fun p q => q = p ∨ q = { p with carrier_id := parent.id })
        ps qs →
      (∀ p ∈ ps, p.carrier_id = parent.id) → qs = ps
  | [], _, hf, _ => by cases hf; rfl
  | p :: ps, _, hf, hall => by
    cases hf with
    | cons h htail =>
      rename_i b l₂
      have hb : b = p := by
        rcases h with h | h
        · exact h
        · have hpc := hall p (List.mem_cons_self p ps)
          rw [h, ← hpc]
      rw [hb, forall₂_restore_eq parent ps l₂ htail
        fun x hx => hall x (List.mem_cons_of_mem p hx)]

/-- C4 (amended): on a `multi` carrier, `send_shipping` restores the
picking's carrier reference to the PARENT carrier on every exit path
(success, swallowed failure, and the raised validation error): every
picking's final state is its original state or its original state with
`carrier_id` set to the parent's id.  In particular, when every picking's
carrier reference was the parent before the call (the normal situation),
all pickings are left unchanged. -/
theorem C4_amended_restored_to_parent
    (superSendBatch : Carrier → List Picking → Except String (List ShipResult))
    (superSend : Carrier → Picking → Except Unit (List ShipResult))
    (matchAddress : Carrier → Partner → Bool) (parent : Carrier)
    (child_ids : List Carrier) (pickings : List Picking)
    (hmulti : parent.destination_type = DestinationType.multi) :
    List.Forall₂ (fun p q => q = p ∨ q = { p with carrier_id := parent.id })
      pickings
      (send_shipping superSendBatch superSend matchAddress parent child_ids
        pickings).2 ∧
    ((∀ p ∈ pickings, p.carrier_id = parent.id) →
      (send_shipping superSendBatch superSend matchAddress parent child_ids
        pickings).2 = pickings) := by
  have hne : parent.destination_type ≠ DestinationType.one := by
    rw [hmulti]; decide
  have hstates :=
    send_pickings_states superSend matchAddress parent child_ids pickings
  constructor
  · simp only [send_shipping]
    rw [if_neg hne]
    exact hstates
  · intro hall
    simp only [send_shipping]
    rw [if_neg hne]
    exact forall₂_restore_eq parent pickings
      (send_pickings superSend matchAddress parent child_ids pickings).2
      hstates hall

/-- Witness for the amended C4: with the picking's carrier initially the
parent, `send_shipping` leaves the picking unchanged. -/
theorem C4_amended_restored_to_parent_witness :
    (send_shipping (fun _ _ => Except.ok [])
      (fun _ _ => Except.ok [{ exact_price := 42, tracking_number := none }])
      (fun _ _ => true) carrierBOD [subRule] [pickingParent]).2 =
      [pickingParent] :=
  (C4_amended_restored_to_parent (fun _ _ => Except.ok [])
    (fun _ _ => Except.ok [{ exact_price := 42, tracking_number := none }])
    (fun _ _ => true) carrierBOD [subRule] [pickingParent] rfl).2
    (by decide)

/-- C10 counterexample: children `[subRuleEmpty, subRule]`; the first
non-fixed child books without raising but returns an empty (falsy)
result, and the second child would return a real result.  The claim says
the scan continues with the remaining candidates and only raises if every
candidate's result is falsy; the code instead raises the validation error
even though `subRule`'s booking would succeed with a non-empty result. -/
theorem C10_counterexample :
    (send_shipping (fun _ _ => Except.ok []) sendEmptyThenOk
      (fun _ _ => true) carrierBOD [subRuleEmpty, subRule]
      [pickingParent]).1 = Except.error noMatchingRuleMsg ∧
    sendEmptyThenOk subRule { pickingParent with carrier_id := subRule.id } =
      Except.ok [{ exact_price := 42, tracking_number := none }] ∧
    (Except.error noMatchingRuleMsg : Except String (List ShipResult)) ≠
      Except.ok [{ exact_price := 42, tracking_number := none }] :=
  ⟨rfl, rfl, fun h => Except.noConfusion h⟩

/-- C10 (amended): when the first candidate child is non-fixed and its
delegated booking completes without raising but returns a falsy (empty)
result, the scan stops at that child (the `break` is unconditional) with
the carrier restored to the parent, and `send_shipping` then raises the
"no matching delivery rule" validation error for that picking — even if
a later candidate would have produced a result. -/
theorem C10_amended_falsy_stops_scan
    (superSendBatch : Carrier → List Picking → Except String (List ShipResult))
    (superSend : Carrier → Picking → Except Unit (List ShipResult))
    (matchAddress : Carrier → Partner → Bool) (parent sub : Carrier)
    (child_ids rest : List Carrier) (p : Picking) (res : List ShipResult)
    (hmulti : parent.destination_type = DestinationType.multi)
    (hcand : candidates child_ids p = sub :: rest)
    (hnf : sub.delivery_type ≠ DeliveryType.fixed)
    (hok : superSend sub { p with carrier_id := sub.id } = Except.ok res)
    (hempty : res.isEmpty = true) :
    send_loop superSend matchAddress parent p (sub :: rest) =
      (some res, { p with carrier_id := parent.id }) ∧
    (send_shipping superSendBatch superSend matchAddress parent child_ids
      [p]).1 = Except.error noMatchingRuleMsg := by
  have hne : parent.destination_type ≠ DestinationType.one := by
    rw [hmulti]; decide
  have hloop : send_loop superSend matchAddress parent p (sub :: rest) =
      (some res, { p with carrier_id := parent.id }) := by
    simp only [send_loop, if_neg hnf, hok]
  refine ⟨hloop, ?_⟩
  simp only [send_shipping]
  rw [if_neg hne]
  simp [send_pickings, hcand, hloop, resTruthy, hempty]

/-- Witness for the amended C10: concretely the validation error is
raised although `subRuleEmpty`'s booking completed without raising. -/
theorem C10_amended_falsy_stops_scan_witness :
    (send_shipping (fun _ _ => Except.ok []) sendEmptyThenOk
      (fun _ _ => true) carrierBOD [subRuleEmpty, subRule]
      [pickingParent]).1 = Except.error noMatchingRuleMsg :=
  (C10_amended_falsy_stops_scan (fun _ _ => Except.ok []) sendEmptyThenOk
    (fun _ _ => true) carrierBOD subRuleEmpty [subRuleEmpty, subRule]
    [subRule] pickingParent [] rfl rfl (by decide) rfl rfl).2

end DeliveryMultiDestination
